import Mathlib

/-!
Verification of the adaptive tabular-extraction and pagination engine of the
UofT course-evaluation scraper (src/Courses-CourseEvaluations/v7.py).

The Python source is shallowly embedded below.  Conventions of the embedding:

* A record produced for one table row is a Python dict from column name to
  cell text; dicts are modelled as association lists in insertion order
  (`RecordT`), and where only the values matter, as update-functions
  `String → Option String`.
* Python's `hash(str(sorted([str(row) for row in data])))` (v7.py line 369)
  is modelled by the string list the hash is applied to: `str` of a dict is
  rendered by `pyStrDict` and the page fingerprint is the sorted list of
  those renderings.  Python's `hash` is a fixed deterministic function of
  that list within one interpreter session, so equality/inequality of the
  modelled fingerprints tracks equality/inequality of the hashes (hash
  collisions between distinct short strings are not modelled).
* Python `str.strip` is modelled by `strTrim`, `str.lower` / `str.upper`
  by `strLower` / `strUpper`, and `\d` / `[A-Z]` / `\s` character classes
  by the corresponding ASCII predicates (the scraped pages are ASCII).
* The browser driver (Selenium) is an external collaborator; it is modelled
  as an oracle indexed by an interaction counter, so that every observation
  the engine makes (pagination info, extracted table, readiness poll,
  navigation outcome) is a fresh observation of the page, exactly as a live
  DOM behaves between Selenium calls.
-/

/-! ## String utilities (substring test, Python-style regex fragments) -/

/-- Character-list equality of a pattern against the front of a list. -/
def frontMatches : List Char → List Char → Bool
  | [], _ => true
  | _ :: _, [] => false
  | a :: as, b :: bs => a == b && frontMatches as bs

/-- Does the pattern occur contiguously somewhere in the list? -/
def containsSubAux (p : List Char) : List Char → Bool
  | [] => frontMatches p []
  | b :: bs => frontMatches p (b :: bs) || containsSubAux p bs

/-- Python's substring test `pat in s`. -/
def containsSub (s pat : String) : Bool :=
  containsSubAux pat.data s.data

/-- Python `str.lower` on ASCII text. -/
def strLower (s : String) : String := String.mk (s.data.map Char.toLower)

/-- Python `str.upper` on ASCII text. -/
def strUpper (s : String) : String := String.mk (s.data.map Char.toUpper)

/-- Python `str.strip`: drop leading and trailing whitespace. -/
def strTrim (s : String) : String :=
  String.mk (((s.data.dropWhile Char.isWhitespace).reverse.dropWhile
    Char.isWhitespace).reverse)

/-- Python's `str.isdigit` on ASCII text: nonempty and all digits. -/
def pyIsDigit (s : String) : Bool :=
  !s.data.isEmpty && s.data.all Char.isDigit

/-- Python `any(char.isdigit() for char in text)`. -/
def hasDigit (s : String) : Bool :=
  s.data.any Char.isDigit

/-- The regex `^[A-Z]{2,5}$` of `_is_valid_course_data_row` (v7.py line 891). -/
def matchDeptCode (s : String) : Bool :=
  2 ≤ s.length && s.length ≤ 5 && s.data.all Char.isUpper

/-- The regex `^[A-Z]{2,5}\d+[A-Z]?\d*$` of `_is_valid_course_data_row`
(v7.py line 895): 2-5 capitals, then digits, then an optional capital and
optional trailing digits. -/
def matchCourseCode (s : String) : Bool :=
  let letters := s.data.takeWhile Char.isUpper
  let r1 := s.data.dropWhile Char.isUpper
  2 ≤ letters.length && letters.length ≤ 5 &&
    (let ds := r1.takeWhile Char.isDigit
     let r2 := r1.dropWhile Char.isDigit
     !ds.isEmpty &&
       (match r2 with
        | [] => true
        | c :: r3 => Char.isUpper c && r3.all Char.isDigit))

/-- The name regex `^[A-Za-z\s'\-\.]+$` of `_is_valid_course_data_row`
(v7.py line 899). -/
def matchNameText (s : String) : Bool :=
  !s.data.isEmpty &&
    s.data.all (fun c =>
      c.isAlpha || c.isWhitespace || c == Char.ofNat 39 || c == '-' || c == '.')

/-- The numeric regex `^\d+\.?\d*$` of `_is_valid_course_data_row`
(v7.py line 907). -/
def matchNumericText (s : String) : Bool :=
  let ds := s.data.takeWhile Char.isDigit
  let r := s.data.dropWhile Char.isDigit
  !ds.isEmpty &&
    (match r with
     | [] => true
     | c :: rest => c == '.' && rest.all Char.isDigit)

/-- The term names used as a closed enumeration in v7.py (lines 816, 907). -/
def seasonNames : List String := ["Fall", "Winter", "Summer", "Spring"]

/-- The regex `^[A-Z]{3}\d+[A-Z]?\d?$` of `_looks_like_data` (v7.py line 810):
exactly 3 capitals, digits, an optional capital, an optional single digit. -/
def matchDataCode (s : String) : Bool :=
  let letters := s.data.takeWhile Char.isUpper
  let r1 := s.data.dropWhile Char.isUpper
  letters.length == 3 &&
    (let ds := r1.takeWhile Char.isDigit
     let r2 := r1.dropWhile Char.isDigit
     !ds.isEmpty &&
       (match r2 with
        | [] => true
        | c :: r3 =>
          Char.isUpper c &&
            (match r3 with
             | [] => true
             | d :: r4 => d.isDigit && r4.isEmpty)))

/-- The regex `^\d+\.\d+$` of `_looks_like_data` (v7.py line 813). -/
def matchDecimalText (s : String) : Bool :=
  let ds := s.data.takeWhile Char.isDigit
  let r := s.data.dropWhile Char.isDigit
  !ds.isEmpty &&
    (match r with
     | [] => false
     | c :: rest => c == '.' && !rest.isEmpty && rest.all Char.isDigit)

/-- `_looks_like_data` (v7.py lines 807-818). -/
def looksLikeData (text : String) : Bool :=
  matchDataCode text || pyIsDigit text || matchDecimalText text ||
    decide (text ∈ seasonNames)

/-! ## Records and the page fingerprint (v7.py lines 367-376) -/

/-- One extracted record: a Python dict from column name to cell text, kept
in insertion order. -/
abbrev RecordT := List (String × String)

/-- Python's single-quote character, used by `str` on a dict. -/
def pyQuote (s : String) : String :=
  String.singleton (Char.ofNat 39) ++ s ++ String.singleton (Char.ofNat 39)

/-- Python's `str(row)` for a dict of strings: `\x7b'k': 'v', ...\x7d`
(quote-escaping inside keys/values is not modelled; the scraped cell texts
contain no quotes). -/
def pyStrDict (r : RecordT) : String :=
  "\x7b" ++
    String.intercalate ", " (r.map (fun kv => pyQuote kv.1 ++ ": " ++ pyQuote kv.2)) ++
    "\x7d"

/-- Lexicographic code-point comparison of character lists, the order Python
uses to compare strings. -/
def charListLe : List Char → List Char → Bool
  | [], _ => true
  | _ :: _, [] => false
  | a :: as, b :: bs =>
    a.toNat < b.toNat || (a.toNat == b.toNat && charListLe as bs)

/-- Python's `<=` on strings. -/
def strLe (a b : String) : Prop := charListLe a.data b.data = true

instance : DecidableRel strLe :=
  fun a b => inferInstanceAs (Decidable (charListLe a.data b.data = true))

theorem charListLe_total :
    ∀ l₁ l₂ : List Char, charListLe l₁ l₂ = true ∨ charListLe l₂ l₁ = true
  | [], _ => .inl rfl
  | _ :: _, [] => .inr rfl
  | a :: as, b :: bs => by
    simp only [charListLe, Bool.or_eq_true, Bool.and_eq_true, decide_eq_true_eq,
      beq_iff_eq]
    rcases Nat.lt_trichotomy a.toNat b.toNat with h | h | h
    · exact .inl (.inl h)
    · rcases charListLe_total as bs with ih | ih
      · exact .inl (.inr ⟨h, ih⟩)
      · exact .inr (.inr ⟨h.symm, ih⟩)
    · exact .inr (.inl h)

theorem charListLe_trans :
    ∀ l₁ l₂ l₃ : List Char, charListLe l₁ l₂ = true → charListLe l₂ l₃ = true →
      charListLe l₁ l₃ = true
  | [], _, _, _, _ => rfl
  | _ :: _, [], _, h₁, _ => by simp [charListLe] at h₁
  | _ :: _, _ :: _, [], _, h₂ => by simp [charListLe] at h₂
  | a :: as, b :: bs, c :: cs, h₁, h₂ => by
    simp only [charListLe, Bool.or_eq_true, Bool.and_eq_true, decide_eq_true_eq,
      beq_iff_eq] at h₁ h₂ ⊢
    rcases h₁ with h₁ | ⟨h₁e, h₁r⟩
    · rcases h₂ with h₂ | ⟨h₂e, _⟩
      · exact .inl (Nat.lt_trans h₁ h₂)
      · exact .inl (h₂e ▸ h₁)
    · rcases h₂ with h₂ | ⟨h₂e, h₂r⟩
      · exact .inl (h₁e ▸ h₂)
      · exact .inr ⟨h₁e.trans h₂e, charListLe_trans as bs cs h₁r h₂r⟩

theorem charListLe_antisymm :
    ∀ l₁ l₂ : List Char, charListLe l₁ l₂ = true → charListLe l₂ l₁ = true →
      l₁ = l₂
  | [], [], _, _ => rfl
  | [], _ :: _, _, h₂ => by simp [charListLe] at h₂
  | _ :: _, [], h₁, _ => by simp [charListLe] at h₁
  | a :: as, b :: bs, h₁, h₂ => by
    simp only [charListLe, Bool.or_eq_true, Bool.and_eq_true, decide_eq_true_eq,
      beq_iff_eq] at h₁ h₂
    rcases h₁ with h₁ | ⟨h₁e, h₁r⟩
    · rcases h₂ with h₂ | ⟨h₂e, _⟩
      · exact absurd (Nat.lt_trans h₁ h₂) (Nat.lt_irrefl _)
      · exact absurd (h₂e ▸ h₁) (Nat.lt_irrefl _)
    · rcases h₂ with h₂ | ⟨_, h₂r⟩
      · exact absurd (h₁e ▸ h₂) (Nat.lt_irrefl _)
      · have hab : a = b := by
          rw [← Char.ofNat_toNat a, ← Char.ofNat_toNat b, h₁e]
        rw [hab, charListLe_antisymm as bs h₁r h₂r]

instance : IsTotal String strLe := ⟨fun a b => charListLe_total a.data b.data⟩

instance : IsTrans String strLe := ⟨fun a b c => charListLe_trans a.data b.data c.data⟩

instance : IsAntisymm String strLe :=
  ⟨fun a b h₁ h₂ => String.toList_inj.mp (charListLe_antisymm a.data b.data h₁ h₂)⟩

/-- Python's `sorted` on a list of strings (lexicographic by code point). -/
def sortStrings (l : List String) : List String :=
  List.insertionSort strLe l

/-- The page fingerprint of v7.py line 369:
`hash(str(sorted([str(row) for row in current_page_data])))`, modelled as the
sorted list of rendered rows that the hash is applied to. -/
def pageFingerprint (data : List RecordT) : List String :=
  sortStrings (data.map pyStrDict)

/-- Sorting a list of strings only depends on the list up to permutation. -/
theorem sortStrings_eq_of_perm {l₁ l₂ : List String} (h : l₁.Perm l₂) :
    sortStrings l₁ = sortStrings l₂ :=
  List.eq_of_perm_of_sorted
    ((List.perm_insertionSort _ _).trans (h.trans (List.perm_insertionSort _ _).symm))
    (List.sorted_insertionSort _ _) (List.sorted_insertionSort _ _)

/-! ## Row validation: `_is_valid_course_data_row` (v7.py lines 843-933) -/

/-- The `header_indicators` vocabulary (v7.py lines 875-879). -/
def headerIndicators : List String :=
  ["dept", "department", "division", "course", "subject", "code",
   "last name", "first name", "instructor", "term", "year", "semester",
   "number", "invited", "responses", "evaluation", "rating", "mean"]

/-- Field extraction of v7.py lines 865-872: scan the row's items and capture
the stripped value of the last key containing a dept / course / name keyword
(the `elif` chain makes the categories mutually exclusive per key). -/
def rowFieldsStep (acc : String × String × String) (kv : String × String) :
    String × String × String :=
  let kl := strLower kv.1
  if containsSub kl "dept" || containsSub kl "department" then
    (strTrim kv.2, acc.2.1, acc.2.2)
  else if containsSub kl "course" || containsSub kl "subject" then
    (acc.1, strTrim kv.2, acc.2.2)
  else if containsSub kl "name" || containsSub kl "instructor" then
    (acc.1, acc.2.1, strTrim kv.2)
  else acc

/-- The dept / course / name triple extracted by the scan (see
`rowFieldsStep`). -/
def rowFields (row : RecordT) : String × String × String :=
  row.foldl rowFieldsStep ("", "", "")

/-- Does the row have any non-empty cell value (v7.py line 856)? -/
def rowHasContent (row : RecordT) : Bool :=
  row.any (fun kv => kv.2 != "" && strTrim kv.2 != "")

/-- Is one of the extracted dept/course/name fields exactly a header
indicator, lower-cased (v7.py lines 882-885)? -/
def rowHeaderFieldHit (row : RecordT) : Bool :=
  let f := rowFields row
  decide ((strLower f.1) ∈ headerIndicators) ||
    decide ((strLower f.2.1) ∈ headerIndicators) ||
    decide ((strLower f.2.2) ∈ headerIndicators)

/-- Count of cells whose stripped value is numeric or a term name
(v7.py lines 903-908). -/
def rowNumericCount (row : RecordT) : Nat :=
  (row.filter (fun kv =>
    kv.2 != "" && strTrim kv.2 != "" &&
      (matchNumericText (strTrim kv.2) || decide (strTrim kv.2 ∈ seasonNames)))).length

/-- The `valid_indicators` score (v7.py lines 887-911): dept code 1 point,
course code 2 points, personal name 1 point, three numeric/term cells 1
point. -/
def rowScore (row : RecordT) : Nat :=
  let f := rowFields row
  (if f.1 != "" && matchDeptCode f.1 then 1 else 0) +
    (if f.2.1 != "" && matchCourseCode f.2.1 then 2 else 0) +
    (if f.2.2 != "" && matchNameText f.2.2 && decide (2 < f.2.2.length) then 1 else 0) +
    (if 3 ≤ rowNumericCount row then 1 else 0)

/-- Number of non-empty cell values (v7.py line 918). -/
def rowNonEmptyCount (row : RecordT) : Nat :=
  (row.filter (fun kv => kv.2 != "" && strTrim kv.2 != "")).length

/-- Number of cell values containing a header indicator as a substring
(v7.py lines 921-924). -/
def rowHeaderLikeCount (row : RecordT) : Nat :=
  (row.filter (fun kv =>
    kv.2 != "" && headerIndicators.any (fun ind => containsSub (strLower kv.2) ind))).length

/-- `_is_valid_course_data_row` (v7.py lines 843-933).  The Python fallback
comparison `header_like_count < non_empty_count * 0.3` (line 926) is an
integer-vs-float comparison; for every pair of counts it coincides with the
exact rational comparison `10 * header_like < 3 * non_empty`, because the
relative error of the double product `n * 0.3` (about 4e-17) is far smaller
than the distance from `3n/10` to the nearest other integer, and when `3n/10`
is itself an integer the rounded product equals it exactly. -/
def isValidCourseDataRow (row : RecordT) : Bool :=
  if !rowHasContent row then false
  else if rowHeaderFieldHit row then false
  else if 2 ≤ rowScore row then true
  else if 5 ≤ rowNonEmptyCount row then
    decide (10 * rowHeaderLikeCount row < 3 * rowNonEmptyCount row)
  else false

/-! ## Header inference: `_extract_table_headers` (v7.py lines 704-805) -/

/-- A table cell as observed through the driver: its own text and the texts
of its child elements (used by strategy 1 when the cell text is empty). -/
structure HCell where
  text : String
  childTexts : List String
deriving DecidableEq

/-- A table row as observed through the driver: its TH cells and TD cells. -/
structure HRow where
  thCells : List HCell
  tdCells : List HCell
deriving DecidableEq

/-- Synthetic column name `Column_{n}` (several call sites in v7.py). -/
def columnName (n : Nat) : String := "Column_" ++ Nat.repr n

/-- Effective text of a TH cell (v7.py lines 717-726): the stripped cell
text, or failing that the first non-empty stripped child text. -/
def thCellText (c : HCell) : String :=
  let t := strTrim c.text
  if t != "" then t
  else
    match c.childTexts.find? (fun s => strTrim s != "") with
    | some s => strTrim s
    | none => ""

/-- Strategy 1 candidate headers from one TH row (v7.py lines 715-726). -/
def strat1Row (cells : List HCell) : List String :=
  cells.foldl
    (fun acc c =>
      let t := thCellText c
      acc ++ [if t != "" then t else columnName (acc.length + 1)])
    []

/-- Strategy 1 (v7.py lines 709-732): first of the first rows whose TH cells
yield a candidate list with some non-empty entry. -/
def strat1Find : List HRow → List String
  | [] => []
  | r :: rest =>
    if !r.thCells.isEmpty then
      let cand := strat1Row r.thCells
      if !cand.isEmpty && cand.any (fun h => 0 < h.length) then cand
      else strat1Find rest
    else strat1Find rest

/-- The expanded `header_keywords` of strategy 2 (v7.py lines 749-757). -/
def headerKeywords : List String :=
  ["dept", "course", "instructor", "term", "year", "name", "division",
   "ins1", "ins2", "ins3", "ins4", "ins5", "ins6",
   "artsc1", "artsc2", "artsc3", "artsc4", "artsc5", "artsc6",
   "number", "invited", "responses", "response", "size",
   "first", "last", "faculty", "school", "program",
   "evaluation", "rating", "score", "mean", "average",
   "section", "class", "enrollment"]

/-- The course-data sniff patterns of strategy 2 (v7.py line 760). -/
def dataSniffPatterns : List String :=
  ["AFR", "ANA", "ANT", "AST", "BCH", "BIO", "CHM", "CSC", "ECO", "ENG",
   "HIS", "MAT", "PHY", "PSY", "SOC"]

/-- Strategy 2 cell scan of one TD row (v7.py lines 746-772).  A cell that
looks like course data aborts the scan (`break`), leaving the partial
candidate list, which is then still checked against the acceptance
thresholds. -/
def strat2Cells : List HCell → List String → Nat → List String × Nat
  | [], cands, cnt => (cands, cnt)
  | c :: rest, cands, cnt =>
    let text := strTrim c.text
    if dataSniffPatterns.any (fun p => containsSub (strUpper text) p) && hasDigit text then
      (cands, cnt)
    else if headerKeywords.any (fun k => containsSub (strLower text) k) then
      strat2Cells rest (cands ++ [text]) (cnt + 1)
    else if text != "" && !pyIsDigit text && decide (1 < text.length) && !looksLikeData text then
      strat2Cells rest (cands ++ [text]) cnt
    else
      strat2Cells rest (cands ++ [columnName (cands.length + 1)]) cnt

/-- Strategy 2 (v7.py lines 734-778): first of the first rows whose TD scan
reaches at least 2 keyword hits and at least 5 candidate headers. -/
def strat2Find : List HRow → List String
  | [] => []
  | r :: rest =>
    if !r.tdCells.isEmpty then
      let s := strat2Cells r.tdCells [] 0
      if 2 ≤ s.2 && 5 ≤ s.1.length then s.1 else strat2Find rest
    else strat2Find rest

/-- Python `h.startswith("Column_")`. -/
def startsWithColumn (h : String) : Bool := frontMatches "Column_".data h.data

/-- Maximum TD cell count over the first 5 rows (v7.py lines 785-788). -/
def maxTdCols (rows : List HRow) : Nat :=
  ((rows.take 5).map (fun r => r.tdCells.length)).foldl max 0

/-- `_extract_table_headers` (v7.py lines 704-805), exception path excluded
(the pure model raises no exceptions): strategy 1 over the first 3 rows,
then - if nothing or only `Column_` names were found - strategy 2 over the
first 3 rows, then - if still empty or fewer than 3 real names - the
positional fallback `Column_1..Column_N` with `N = maxTdCols rows`. -/
def extractTableHeaders (rows : List HRow) : List String :=
  let h1 := strat1Find (rows.take 3)
  let h2 :=
    if h1.isEmpty || h1.all (fun h => h == "" || startsWithColumn h) then
      let c := strat2Find (rows.take 3)
      if c.isEmpty then h1 else c
    else h1
  if h2.isEmpty || (h2.filter (fun h => h != "" && !startsWithColumn h)).length < 3 then
    (List.range (maxTdCols rows)).map (fun i => columnName (i + 1))
  else h2

/-! ## Per-row schema padding and record construction (v7.py lines 648-673) -/

/-- A Python dict viewed through value lookup only. -/
def DictF := String → Option String

/-- Python dict assignment `d[k] = v` (value view: later assignments win). -/
def dictAssign (d : DictF) (k v : String) : DictF :=
  fun x => if x = k then some v else d x

/-- The empty dict. -/
def emptyDict : DictF := fun _ => none

/-- Header extension of v7.py lines 655-662: grow the header list with
`Column_{j+1}` names until it is as long as the row. -/
def extendHeaders (headers : List String) (cellCount : Nat) : List String :=
  let maxCols := max cellCount headers.length
  if headers.length < maxCols then
    headers ++ ((List.range maxCols).drop headers.length).map (fun j => columnName (j + 1))
  else headers

/-- Record construction of v7.py lines 653-673: after extension, each cell is
assigned to its header (line 666 keeps a positional fallback name), then
every remaining header is assigned the empty string. -/
def rowRecord (headers : List String) (cells : List String) : DictF :=
  let hs := extendHeaders headers cells.length
  let afterCells :=
    (List.range cells.length).foldl
      (fun d j =>
        dictAssign d (if j < hs.length then hs.getD j "" else columnName (j + 1))
          (strTrim (cells.getD j "")))
      emptyDict
  ((List.range hs.length).drop cells.length).foldl
    (fun d j => dictAssign d (hs.getD j "") "") afterCells

/-! ## Incremental persistence: `save_incremental_data` (v7.py lines 1323-1349) -/

/-- The parts of `self.combined_data` touched by `save_incremental_data`. -/
structure CombinedData where
  evaluationData : List RecordT
  totalPages : Nat
  totalRecords : Nat
deriving DecidableEq

/-- `save_incremental_data(page_data, current_page)` (v7.py lines 1323-1349).
`page_data` is `none` for Python `None`.  The returned Bool records whether
the JSON/CSV output files were written. -/
def saveIncrementalData (c : CombinedData) (pageData : Option (List RecordT))
    (currentPage : Nat) : CombinedData × Bool :=
  match pageData with
  | none => (c, false)
  | some [] => (c, false)
  | some data =>
    let ed := c.evaluationData ++ data
    ({ evaluationData := ed,
       totalPages := max currentPage c.totalPages,
       totalRecords := ed.length }, true)

/-! ## The pagination engine: `_scrape_all_pages_fixed` (v7.py lines 321-419)

The Selenium driver is modelled as an oracle indexed by an interaction
counter `t`; every call the engine makes to the driver consumes one tick.
`pag t` is the outcome of `_get_pagination_info` (v7.py lines 228-319),
`extract t` of `_extract_main_table` (lines 580-702), `waitReady t` of
`_wait_for_data_table_to_load` (lines 119-176), and `navigate t` of
`_navigate_to_next_page` (lines 421-504).  Ghost fields of the loop state
(`navCount`, `repeatCount`, `firstPageRounds`, `pageLog`) record the history
of a run and change nothing about the control flow. -/

/-- Result of `_get_pagination_info`: reported current page, reported total
pages, and whether the next button is available. -/
structure PagInfo where
  currentPage : Nat
  totalPages : Nat
  hasNext : Bool
deriving DecidableEq

/-- The page-driver oracle. -/
structure Driver where
  pag : Nat → PagInfo
  extract : Nat → List RecordT
  waitReady : Nat → Bool
  navigate : Nat → Bool

/-- State of `_scrape_all_pages_fixed` plus ghost instrumentation. -/
structure LoopState where
  t : Nat
  currentPage : Nat
  totalPages : Nat
  seen : List (List String)
  allData : List RecordT
  committedPages : List (Nat × List RecordT)
  navCount : Nat
  repeatCount : Nat
  firstPageRounds : Nat
  pageLog : List Nat
deriving DecidableEq

/-- The distinct exit points (`break` sites / loop-condition failure) of the
`while` loop of `_scrape_all_pages_fixed`.  `noDataFirstPage` (line 383) is
the structural failure the surrounding spec calls `Failed`; every other exit
is a graceful completion (`Done`). -/
inductive ExitReason where
  | duplicateData
  | noDataFirstPage
  | reachedLastPage
  | noNextButton
  | alreadyLastPage
  | navFailed
  | pageNotIncreased
  | loopCondFalse
deriving DecidableEq

/-- One loop iteration either stops the session or continues. -/
inductive StepRes where
  | stop (reason : ExitReason) (st : LoopState)
  | next (st : LoopState)
deriving DecidableEq

/-- `scrape_first_page_with_retry` (v7.py lines 178-226): up to 3 rounds; a
round that is not ready (and is not the last) refreshes and retries; an
extraction with data returns; an empty extraction refreshes and retries
until the rounds run out.  Returns the data, the next tick, and the number
of rounds used.  The readiness poll, the extraction and the refresh each
consume one driver tick. -/
def firstPageLoop (d : Driver) : Nat → Nat → Nat → List RecordT × Nat × Nat
  | 0, t, rounds => ([], t, rounds)
  | left + 1, t, rounds =>
    let ready := d.waitReady t
    if !ready && decide (0 < left) then
      firstPageLoop d left (t + 2) (rounds + 1)
    else
      let data := d.extract (t + 1)
      if !data.isEmpty then (data, t + 2, rounds + 1)
      else if 0 < left then firstPageLoop d left (t + 3) (rounds + 1)
      else ([], t + 2, rounds + 1)

/-- The navigation tail of one loop iteration (v7.py lines 385-416):
last-page check, pre-navigation pagination check, navigation, and the
post-navigation verification that the page number strictly increased. -/
def navPhase (d : Driver) (st : LoopState) : StepRes :=
  if st.totalPages ≤ st.currentPage then .stop .reachedLastPage st
  else
    let pre := d.pag st.t
    let st1 := { st with t := st.t + 1 }
    if !pre.hasNext then .stop .noNextButton st1
    else if pre.totalPages ≤ pre.currentPage then .stop .alreadyLastPage st1
    else
      let ok := d.navigate st1.t
      let st2 := { st1 with t := st1.t + 1, navCount := st1.navCount + 1 }
      if !ok then .stop .navFailed st2
      else
        let post := d.pag st2.t
        let st3 := { st2 with t := st2.t + 1 }
        if post.currentPage ≤ st3.currentPage then .stop .pageNotIncreased st3
        else
          .next { st3 with currentPage := post.currentPage,
                           pageLog := st3.pageLog ++ [post.currentPage] }

/-- One iteration of the `while` loop of `_scrape_all_pages_fixed`
(v7.py lines 342-416): loop condition, pagination refresh (lines 345-357),
extraction (page 1 through the retry wrapper, lines 359-365), duplicate
detection and commit (lines 367-379), first-page no-data failure
(lines 380-383), then the navigation tail. -/
def loopBody (d : Driver) (st : LoopState) : StepRes :=
  if st.totalPages < st.currentPage then .stop .loopCondFalse st
  else
    let p := d.pag st.t
    let st1 := { st with t := st.t + 1, currentPage := p.currentPage,
                         totalPages := p.totalPages,
                         pageLog := st.pageLog ++ [p.currentPage] }
    let r :=
      if st1.currentPage == 1 then firstPageLoop d 3 st1.t 0
      else (d.extract st1.t, st1.t + 1, 0)
    let st2 := { st1 with t := r.2.1,
                          firstPageRounds := st1.firstPageRounds + r.2.2 }
    if !r.1.isEmpty then
      let fp := pageFingerprint r.1
      if fp ∈ st2.seen then
        .stop .duplicateData { st2 with repeatCount := st2.repeatCount + 1 }
      else
        navPhase d
          { st2 with seen := st2.seen ++ [fp],
                     allData := st2.allData ++ r.1,
                     committedPages := st2.committedPages ++ [(st2.currentPage, r.1)] }
    else if st2.currentPage == 1 then .stop .noDataFirstPage st2
    else navPhase d st2

/-- A finished session or a session still running when the fuel ran out
(the Python loop has no fuel; fuel only truncates observation of a run). -/
inductive LoopResult where
  | finished (reason : ExitReason) (st : LoopState)
  | outOfFuel (st : LoopState)
deriving DecidableEq

/-- Iterate `loopBody` up to `fuel` times. -/
def scrapeLoop (d : Driver) : Nat → LoopState → LoopResult
  | 0, st => .outOfFuel st
  | fuel + 1, st =>
    match loopBody d st with
    | .stop r st2 => .finished r st2
    | .next st2 => scrapeLoop d fuel st2

/-- Initial state from the pagination info read before the loop
(v7.py lines 332-334). -/
def initState (p : PagInfo) : LoopState :=
  { t := 1, currentPage := p.currentPage, totalPages := p.totalPages,
    seen := [], allData := [], committedPages := [], navCount := 0,
    repeatCount := 0, firstPageRounds := 0, pageLog := [p.currentPage] }

/-- `_scrape_all_pages_fixed` run against a driver, observed for `fuel`
iterations. -/
def runScraper (d : Driver) (fuel : Nat) : LoopResult :=
  scrapeLoop d fuel (initState (d.pag 0))

/-- The state carried by a result. -/
def LoopResult.state : LoopResult → LoopState
  | .finished _ st => st
  | .outOfFuel st => st

/-- The exit reason of a finished session. -/
def LoopResult.reason? : LoopResult → Option ExitReason
  | .finished r _ => some r
  | .outOfFuel _ => none

/-- Is the session still running (fuel exhausted before any exit)? -/
def LoopResult.isRunning : LoopResult → Bool
  | .outOfFuel _ => true
  | .finished _ _ => false

/-- The state carried by a step result. -/
def StepRes.state : StepRes → LoopState
  | .stop _ st => st
  | .next st => st

/-- Does a list of numbers contain an adjacent decrease? -/
def hasDecrease : List Nat → Bool
  | a :: b :: rest => b < a || hasDecrease (b :: rest)
  | _ => false

/-! ### Concrete driver stubs used in the theorems below -/

/-- A driver that always reports page 1 of 2 with an enabled next button -
except immediately after a navigation, when it briefly reports page 2 -
and serves fresh table content on every extraction (a cell text that grows
with the interaction counter).  This simulates a host that re-renders
page 1 with new content after every "next" click. -/
def oscillatingDriver : Driver :=
  { pag := fun t => if t % 6 == 0 && t != 0 then ⟨2, 2, true⟩ else ⟨1, 2, true⟩
    extract := fun t => [[("r", String.mk (List.replicate t (Char.ofNat 97)))]]
    waitReady := fun _ => true
    navigate := fun _ => true }

/-- The fingerprints committed by an `oscillatingDriver` session after `k`
iterations (the driver serves page content at ticks `6*j + 3`). -/
def oscSeen (k : Nat) : List (List String) :=
  (List.range k).map
    (fun j => pageFingerprint [[("r", String.mk (List.replicate (6 * j + 3) (Char.ofNat 97)))]])

/-- The two records served on every page by `stuckNextDriver`. -/
def stuckPageRows : List RecordT :=
  [[("Dept", "CSC"), ("Course", "CSC108")], [("Dept", "MAT"), ("Course", "MAT137")]]

/-- A driver with a broken next button: it reports 2 total pages and moves
to page 2 on navigation, but serves the identical content there
(end-to-end scenario B of the spec). -/
def stuckNextDriver : Driver :=
  { pag := fun t => if t ≤ 5 then ⟨1, 2, true⟩ else ⟨2, 2, true⟩
    extract := fun _ => stuckPageRows
    waitReady := fun _ => true
    navigate := fun _ => true }

/-- A driver whose page 1 never shows a data table
(end-to-end scenario C of the spec). -/
def emptyPageDriver : Driver :=
  { pag := fun _ => ⟨1, 1, false⟩
    extract := fun _ => []
    waitReady := fun _ => false
    navigate := fun _ => false }

/-- A well-behaved single-page driver: constant reported page number, next
button never disabled, navigation never failing. -/
def politeDriver : Driver :=
  { pag := fun _ => ⟨1, 1, true⟩
    extract := fun _ => stuckPageRows
    waitReady := fun _ => true
    navigate := fun _ => true }

/-- A driver sitting on page 2 of 3 whose pages show no data table. -/
def emptyLaterDriver : Driver :=
  { pag := fun _ => ⟨2, 3, true⟩
    extract := fun _ => []
    waitReady := fun _ => true
    navigate := fun _ => true }

/-- The loop state of the `stuckNextDriver` session when its second
iteration begins: page 1 is committed and the engine believes it moved to
page 2. -/
def stuckEntryState : LoopState :=
  { t := 7, currentPage := 2, totalPages := 2,
    seen := [pageFingerprint stuckPageRows],
    allData := stuckPageRows,
    committedPages := [(1, stuckPageRows)],
    navCount := 1, repeatCount := 0, firstPageRounds := 1, pageLog := [1, 1, 2] }

/-! ## Theorems about the fingerprint (claims C4 and C9) -/

/-- Claim C4: for every sequence of extracted records and every permutation
of that sequence, the page fingerprint computed from the permuted sequence
equals the fingerprint computed from the original sequence. -/
theorem fingerprint_perm_invariant (l₁ l₂ : List RecordT) (h : l₁.Perm l₂) :
    pageFingerprint l₁ = pageFingerprint l₂ :=
  sortStrings_eq_of_perm (h.map pyStrDict)

/-- Witness for C4 at a concrete two-record page and its transposition. -/
theorem fingerprint_perm_invariant_witness :
    pageFingerprint [[("Dept", "CSC")], [("Dept", "MAT")]] =
      pageFingerprint [[("Dept", "MAT")], [("Dept", "CSC")]] :=
  fingerprint_perm_invariant _ _
    (List.Perm.swap [("Dept", "MAT")] [("Dept", "CSC")] [])

/-- Counterexample to C9 as stated: the fingerprint is computed from the
sorted *list* (multiset) of canonical row strings, not from their set; two
pages whose records form the same set of canonical strings but differ in how
often a record repeats get different fingerprints. -/
theorem fingerprint_duplicate_counterexample :
    (([[("a", "1")], [("a", "1")]] : List RecordT).map pyStrDict).dedup =
        (([[("a", "1")]] : List RecordT).map pyStrDict).dedup ∧
      pageFingerprint [[("a", "1")], [("a", "1")]] ≠ pageFingerprint [[("a", "1")]] :=
  ⟨by decide, by decide⟩

/-- Claim C9 (amended): the fingerprint is a stable hash over the sorted
list of the records' canonical string forms, so any two pages whose records
form the same multiset of canonical strings have equal fingerprints (pages
differing only in a record's repetition count do not). -/
theorem fingerprint_multiset_invariant (l₁ l₂ : List RecordT)
    (h : (l₁.map pyStrDict).Perm (l₂.map pyStrDict)) :
    pageFingerprint l₁ = pageFingerprint l₂ :=
  sortStrings_eq_of_perm h

/-- Witness for the amended C9: two pages with equal canonical multisets but
different record orders and different key layouts. -/
theorem fingerprint_multiset_invariant_witness :
    (([[("a", "1")], [("b", "2")]] : List RecordT).map pyStrDict).Perm
        (([[("b", "2")], [("a", "1")]] : List RecordT).map pyStrDict) ∧
      pageFingerprint [[("a", "1")], [("b", "2")]] =
        pageFingerprint [[("b", "2")], [("a", "1")]] :=
  ⟨List.Perm.swap (pyStrDict [("b", "2")]) (pyStrDict [("a", "1")]) [],
    fingerprint_multiset_invariant _ _
      (List.Perm.swap (pyStrDict [("b", "2")]) (pyStrDict [("a", "1")]) [])⟩

/-! ## Theorem about incremental persistence (claim C10) -/

/-- Claim C10: committing an empty page is a no-op - `save_incremental_data`
with an empty (or `None`) record list leaves `evaluation_data`,
`total_pages` and `total_records` unchanged and writes no output files. -/
theorem save_incremental_empty_noop (c : CombinedData)
    (pd : Option (List RecordT)) (page : Nat) (h : pd = none ∨ pd = some []) :
    saveIncrementalData c pd page = (c, false) := by
  rcases h with h | h <;> subst h <;> rfl

/-- Witness for C10 at concrete accumulated data and page number. -/
theorem save_incremental_empty_noop_witness :
    saveIncrementalData ⟨stuckPageRows, 1, 2⟩ (some []) 5 =
      (⟨stuckPageRows, 1, 2⟩, false) :=
  save_incremental_empty_noop _ _ _ (Or.inr rfl)

/-! ## Theorems about header inference (claim C8) -/

/-- Three rows with no cells at all: strategies 1 and 2 find nothing and the
first 5 rows hold zero TD cells. -/
def emptyRows3 : List HRow := [⟨[], []⟩, ⟨[], []⟩, ⟨[], []⟩]

/-- One row whose TD cells look like course data, aborting the strategy-2
scan; then the positional fallback sees 2 TD cells. -/
def dataRows1 : List HRow := [⟨[], [⟨"CSC108", []⟩, ⟨"3.5", []⟩]⟩]

/-- Counterexample to C8 as stated: when the maximum TD cell count over the
first 5 rows is zero, `_extract_table_headers` returns the empty column
list on its normal path - the fixed 15/20-column minimal schema exists only
in its exception handler. -/
theorem positional_fallback_empty_counterexample :
    extractTableHeaders emptyRows3 = ([] : List String) ∧ maxTdCols emptyRows3 = 0 :=
  ⟨by decide, by decide⟩

/-- Claim C8 (amended): when neither the explicit-header strategy nor the
header-keyword strategy succeeds, the inferred schema is
`Column_1..Column_N` with `N` the maximum TD cell count over the first 5
rows; and when that maximum is zero the result is the empty column list
(not a fixed non-empty minimal schema). -/
theorem positional_fallback_headers (rows : List HRow)
    (h1 : strat1Find (rows.take 3) = [])
    (h2 : strat2Find (rows.take 3) = []) :
    extractTableHeaders rows =
        (List.range (maxTdCols rows)).map (fun i => columnName (i + 1)) ∧
      (maxTdCols rows = 0 → extractTableHeaders rows = []) := by
  have hmain : extractTableHeaders rows =
      (List.range (maxTdCols rows)).map (fun i => columnName (i + 1)) := by
    unfold extractTableHeaders
    rw [h1, h2]
    simp
  refine ⟨hmain, fun h0 => ?_⟩
  rw [hmain, h0]
  rfl

/-- Witness for the amended C8 at a table whose data-like first row defeats
both header strategies, leaving a 2-column positional schema. -/
theorem positional_fallback_headers_witness :
    extractTableHeaders dataRows1 =
        (List.range (maxTdCols dataRows1)).map (fun i => columnName (i + 1)) ∧
      (maxTdCols dataRows1 = 0 → extractTableHeaders dataRows1 = []) :=
  positional_fallback_headers dataRows1 (by decide) (by decide)

/-! ## Theorems about per-row schema padding (claim C6) -/

/-- Indices from `k` to `n-1` are exactly those kept by dropping `k` from
`range n`. -/
theorem mem_drop_range {k j n : Nat} (h1 : k ≤ j) (h2 : j < n) :
    j ∈ (List.range n).drop k := by
  have hlen : j - k < ((List.range n).drop k).length := by
    simp only [List.length_drop, List.length_range]; omega
  have he : ((List.range n).drop k)[j - k] = j := by
    rw [List.getElem_drop, List.getElem_range]
    omega
  exact he ▸ List.getElem_mem hlen

/-- A fold of empty-string padding assignments leaves keys it never assigns
untouched. -/
theorem padFold_not_mem (hs : List String) (L : List Nat) (d : DictF)
    (k : String) (h : ∀ j ∈ L, hs.getD j "" ≠ k) :
    (L.foldl (fun d j => dictAssign d (hs.getD j "") "") d) k = d k := by
  induction L generalizing d with
  | nil => rfl
  | cons j rest ih =>
    simp only [List.foldl_cons]
    rw [ih _ (fun j' hj' => h j' (List.mem_cons_of_mem _ hj'))]
    simp only [dictAssign]
    rw [if_neg]
    intro hk
    exact h j (List.mem_cons_self _ _) hk.symm

/-- A fold of empty-string padding assignments sends every key it assigns to
`some ""`. -/
theorem padFold_mem (hs : List String) (L : List Nat) (d : DictF) (k : String)
    (h : ∃ j ∈ L, hs.getD j "" = k) :
    (L.foldl (fun d j => dictAssign d (hs.getD j "") "") d) k = some "" := by
  induction L generalizing d with
  | nil =>
    obtain ⟨j, hj, _⟩ := h
    exact absurd hj (List.not_mem_nil j)
  | cons j rest ih =>
    simp only [List.foldl_cons]
    by_cases hr : ∃ j' ∈ rest, hs.getD j' "" = k
    · exact ih _ hr
    · push_neg at hr
      rw [padFold_not_mem hs rest _ k hr]
      obtain ⟨j0, hj0, hk⟩ := h
      rcases List.mem_cons.mp hj0 with rfl | hmem
      · subst hk
        simp [dictAssign]
      · exact absurd hk (hr j0 hmem)

/-- Claim C6: after per-row padding the schema is at least as long as the
row, and the produced record assigns the empty string to every column name
sitting at a padded position (one with no corresponding cell). -/
theorem schema_padding_invariant (headers cells : List String) :
    cells.length ≤ (extendHeaders headers cells.length).length ∧
      ∀ j, cells.length ≤ j → j < (extendHeaders headers cells.length).length →
        rowRecord headers cells ((extendHeaders headers cells.length).getD j "") =
          some "" := by
  constructor
  · have hmax := Nat.le_max_left cells.length headers.length
    simp only [extendHeaders]
    split
    · simp only [List.length_append, List.length_map, List.length_drop,
        List.length_range]
      omega
    · omega
  · intro j h1 h2
    have hj : j ∈ (List.range (extendHeaders headers cells.length).length).drop
        cells.length := mem_drop_range h1 h2
    unfold rowRecord
    exact padFold_mem _ _ _ _ ⟨j, hj, rfl⟩

/-- Witness for C6: a 1-cell row under a 3-name schema; the second column
name is padded with the empty string. -/
theorem schema_padding_invariant_witness :
    (["x"] : List String).length ≤
        (extendHeaders ["A", "B", "C"] (["x"] : List String).length).length ∧
      rowRecord ["A", "B", "C"] ["x"]
          ((extendHeaders ["A", "B", "C"] (["x"] : List String).length).getD 1 "") =
        some "" :=
  ⟨(schema_padding_invariant ["A", "B", "C"] ["x"]).1,
    (schema_padding_invariant ["A", "B", "C"] ["x"]).2 1 (by decide) (by decide)⟩

/-! ## Theorems about row validation (claim C5) -/

/-- Every header indicator survives stripping. -/
theorem headerIndicators_trim : ∀ s ∈ headerIndicators, strTrim s = s := by decide

/-- Every header indicator is already lower-case. -/
theorem headerIndicators_lower : ∀ s ∈ headerIndicators, strLower s = s := by decide

/-- No header indicator is the empty string. -/
theorem headerIndicators_ne : ∀ s ∈ headerIndicators, s ≠ "" := by decide

/-- No header indicator is numeric or a term name. -/
theorem headerIndicators_notNumeric :
    ∀ s ∈ headerIndicators, matchNumericText s = false ∧ s ∉ seasonNames := by decide

/-- Every header indicator contains itself as a substring. -/
theorem headerIndicators_selfSub :
    ∀ s ∈ headerIndicators, containsSub s s = true := by decide

/-- One field-extraction step keeps every component either empty or inside
the indicator vocabulary, provided the scanned value is. -/
theorem rowFieldsStep_inv (acc : String × String × String) (kv : String × String)
    (hacc : (acc.1 = "" ∨ acc.1 ∈ headerIndicators) ∧
      (acc.2.1 = "" ∨ acc.2.1 ∈ headerIndicators) ∧
      (acc.2.2 = "" ∨ acc.2.2 ∈ headerIndicators))
    (hkv : kv.2 ∈ headerIndicators ∨ kv.2 = "") :
    ((rowFieldsStep acc kv).1 = "" ∨ (rowFieldsStep acc kv).1 ∈ headerIndicators) ∧
      ((rowFieldsStep acc kv).2.1 = "" ∨ (rowFieldsStep acc kv).2.1 ∈ headerIndicators) ∧
      ((rowFieldsStep acc kv).2.2 = "" ∨ (rowFieldsStep acc kv).2.2 ∈ headerIndicators) := by
  have hval : strTrim kv.2 = "" ∨ strTrim kv.2 ∈ headerIndicators := by
    rcases hkv with hkv | hkv
    · rw [headerIndicators_trim _ hkv]
      exact .inr hkv
    · rw [hkv]
      exact .inl rfl
  simp only [rowFieldsStep]
  split
  · exact ⟨hval, hacc.2.1, hacc.2.2⟩
  · split
    · exact ⟨hacc.1, hval, hacc.2.2⟩
    · split
      · exact ⟨hacc.1, hacc.2.1, hval⟩
      · exact hacc

/-- Field extraction over a row of vocabulary-or-empty values yields
vocabulary-or-empty fields. -/
theorem rowFields_inv (row : RecordT)
    (hv : ∀ kv ∈ row, kv.2 ∈ headerIndicators ∨ kv.2 = "") :
    ((rowFields row).1 = "" ∨ (rowFields row).1 ∈ headerIndicators) ∧
      ((rowFields row).2.1 = "" ∨ (rowFields row).2.1 ∈ headerIndicators) ∧
      ((rowFields row).2.2 = "" ∨ (rowFields row).2.2 ∈ headerIndicators) := by
  have main : ∀ (l : RecordT) (acc : String × String × String),
      (∀ kv ∈ l, kv.2 ∈ headerIndicators ∨ kv.2 = "") →
      ((acc.1 = "" ∨ acc.1 ∈ headerIndicators) ∧
        (acc.2.1 = "" ∨ acc.2.1 ∈ headerIndicators) ∧
        (acc.2.2 = "" ∨ acc.2.2 ∈ headerIndicators)) →
      ((l.foldl rowFieldsStep acc).1 = "" ∨
          (l.foldl rowFieldsStep acc).1 ∈ headerIndicators) ∧
        ((l.foldl rowFieldsStep acc).2.1 = "" ∨
          (l.foldl rowFieldsStep acc).2.1 ∈ headerIndicators) ∧
        ((l.foldl rowFieldsStep acc).2.2 = "" ∨
          (l.foldl rowFieldsStep acc).2.2 ∈ headerIndicators) := by
    intro l
    induction l with
    | nil => intro acc _ hacc; exact hacc
    | cons kv rest ih =>
      intro acc hl hacc
      simp only [List.foldl_cons]
      exact ih _ (fun kv' h => hl kv' (List.mem_cons_of_mem _ h))
        (rowFieldsStep_inv acc kv hacc (hl kv (List.mem_cons_self _ _)))
  exact main row _ hv ⟨.inl rfl, .inl rfl, .inl rfl⟩

/-- The acceptance test written as one boolean formula (helper for C5). -/
theorem isValid_eq (row : RecordT) :
    isValidCourseDataRow row =
      (rowHasContent row && !rowHeaderFieldHit row &&
        (decide (2 ≤ rowScore row) ||
          (decide (5 ≤ rowNonEmptyCount row) &&
            decide (10 * rowHeaderLikeCount row < 3 * rowNonEmptyCount row)))) := by
  simp only [isValidCourseDataRow]
  cases hc : rowHasContent row <;> cases hh : rowHeaderFieldHit row <;>
    simp only [Bool.not_false, Bool.not_true, Bool.false_and, Bool.true_and,
      Bool.and_false, Bool.and_true, if_true, if_false] <;>
    split <;> simp_all

/-- A row built entirely from the header vocabulary (or empty cells) is
rejected (helper for C5). -/
theorem vocabRow_rejected (row : RecordT)
    (hv : ∀ kv ∈ row, kv.2 ∈ headerIndicators ∨ kv.2 = "") :
    isValidCourseDataRow row = false := by
  rw [isValid_eq]
  cases hc : rowHasContent row
  · simp
  · cases hh : rowHeaderFieldHit row
    · -- no dept/course/name field hit the vocabulary, so all three are empty
      have hf := rowFields_inv row hv
      have hhit : ∀ s : String, s ∈ headerIndicators →
          decide (strLower s ∈ headerIndicators) = true := by
        intro s hs
        rw [headerIndicators_lower s hs]
        exact decide_eq_true hs
      have hempty : (rowFields row).1 = "" ∧ (rowFields row).2.1 = "" ∧
          (rowFields row).2.2 = "" := by
        simp only [rowHeaderFieldHit, Bool.or_eq_false_iff,
          decide_eq_false_iff_not] at hh
        refine ⟨?_, ?_, ?_⟩
        · rcases hf.1 with h | h
          · exact h
          · exact absurd (by rw [headerIndicators_lower _ h]; exact h) hh.1.1
        · rcases hf.2.1 with h | h
          · exact h
          · exact absurd (by rw [headerIndicators_lower _ h]; exact h) hh.1.2
        · rcases hf.2.2 with h | h
          · exact h
          · exact absurd (by rw [headerIndicators_lower _ h]; exact h) hh.2
      -- the score is zero
      have hnum : rowNumericCount row = 0 := by
        unfold rowNumericCount
        rw [List.length_eq_zero]
        rw [List.filter_eq_nil_iff]
        intro kv hkv
        rcases hv kv hkv with h | h
        · rw [headerIndicators_trim _ h]
          have := headerIndicators_notNumeric kv.2 h
          simp [this.1, this.2, headerIndicators_ne kv.2 h]
        · simp [h]
      have hscore : rowScore row = 0 := by
        simp only [rowScore]
        rw [hempty.1, hempty.2.1, hempty.2.2, hnum]
        decide
      -- header-like cells and non-empty cells coincide
      have hcounts : rowHeaderLikeCount row = rowNonEmptyCount row := by
        unfold rowHeaderLikeCount rowNonEmptyCount
        congr 1
        apply List.filter_congr
        intro kv hkv
        rcases hv kv hkv with h | h
        · have hne : (kv.2 != "") = true := by
            simp [headerIndicators_ne kv.2 h]
          rw [hne]
          simp only [Bool.true_and]
          rw [headerIndicators_trim _ h, headerIndicators_lower _ h]
          have hany : headerIndicators.any (fun ind => containsSub kv.2 ind) = true :=
            List.any_eq_true.mpr ⟨kv.2, h, headerIndicators_selfSub kv.2 h⟩
          rw [hany]
          simp [headerIndicators_ne kv.2 h]
        · simp [h]
      rw [hscore, hcounts]
      simp
      omega
    · simp

/-- A row whose keys route header words into the dept/course/name fields
while still carrying a strong course-code signal. -/
def headerFieldRow : RecordT := [("dept", "dept"), ("course", "CSC108"), ("name", "Smith")]

/-- A row of five non-empty cells drawn from the header vocabulary. -/
def vocabRow : RecordT :=
  [("A", "dept"), ("B", "course"), ("C", "instructor"), ("D", "term"), ("E", "year")]

/-- Counterexample to C5 as stated: acceptance is not exactly
"score ≥ 2 or fallback" - before scoring, the validator rejects any row one
of whose extracted dept/course/name fields equals a header-indicator word
(v7.py lines 882-885).  This row has content and score ≥ 2 yet is
rejected. -/
theorem validator_header_field_counterexample :
    isValidCourseDataRow headerFieldRow = false ∧
      rowHasContent headerFieldRow = true ∧ 2 ≤ rowScore headerFieldRow :=
  ⟨by decide, by decide, by decide⟩

/-- Claim C5 (amended): an all-empty row is rejected; otherwise, after the
additional pre-check that rejects any row whose extracted dept/course/name
field exactly equals a header-indicator word, a row is accepted exactly when
its weighted signal score reaches 2 or, failing that, when at least 5 cells
are non-empty and fewer than 30 percent of cells match the header
vocabulary; consequently a row built from the header-keyword vocabulary is
rejected even with 5 or more non-empty cells. -/
theorem row_validator_characterization :
    (∀ row : RecordT, rowHasContent row = false → isValidCourseDataRow row = false) ∧
      (∀ row : RecordT, isValidCourseDataRow row =
        (rowHasContent row && !rowHeaderFieldHit row &&
          (decide (2 ≤ rowScore row) ||
            (decide (5 ≤ rowNonEmptyCount row) &&
              decide (10 * rowHeaderLikeCount row < 3 * rowNonEmptyCount row))))) ∧
      (∀ row : RecordT, (∀ kv ∈ row, kv.2 ∈ headerIndicators ∨ kv.2 = "") →
        isValidCourseDataRow row = false) :=
  ⟨fun row h => by simp [isValidCourseDataRow, h],
    fun row => isValid_eq row,
    fun row hv => vocabRow_rejected row hv⟩

/-- Witness for the amended C5: an all-empty row, the boolean
characterization at the pre-check counterexample row, and the rejection of a
5-cell pure-vocabulary row. -/
theorem row_validator_characterization_witness :
    isValidCourseDataRow [("A", ""), ("B", " ")] = false ∧
      isValidCourseDataRow headerFieldRow =
        (rowHasContent headerFieldRow && !rowHeaderFieldHit headerFieldRow &&
          (decide (2 ≤ rowScore headerFieldRow) ||
            (decide (5 ≤ rowNonEmptyCount headerFieldRow) &&
              decide (10 * rowHeaderLikeCount headerFieldRow <
                3 * rowNonEmptyCount headerFieldRow)))) ∧
      isValidCourseDataRow vocabRow = false :=
  ⟨row_validator_characterization.1 [("A", ""), ("B", " ")] (by decide),
    row_validator_characterization.2.1 headerFieldRow,
    row_validator_characterization.2.2 vocabRow (by decide)⟩

/-! ## Theorems about the pagination engine (claims C1, C2, C3, C7) -/

/-- The tick returned by the first-page retry wrapper never goes backwards. -/
theorem firstPageLoop_t_le (d : Driver) :
    ∀ left t rounds, t ≤ (firstPageLoop d left t rounds).2.1 := by
  intro left
  induction left with
  | zero => intro t rounds; exact Nat.le_refl t
  | succ n ih =>
    intro t rounds
    simp only [firstPageLoop]
    split
    · exact le_trans (by omega) (ih (t + 2) (rounds + 1))
    · split
      · exact Nat.le_add_right t 2
      · split
        · exact le_trans (by omega) (ih (t + 3) (rounds + 1))
        · exact Nat.le_add_right t 2

/-- Whichever extraction branch runs, the driver tick never goes backwards. -/
theorem branch_t_le (d : Driver) (c : Prop) [Decidable c] (t : Nat) :
    t ≤ (if c then firstPageLoop d 3 t 0 else (d.extract t, t + 1, 0)).2.1 := by
  split
  · exact firstPageLoop_t_le d 3 t 0
  · exact Nat.le_succ t

/-- Against a driver that never extracts any data, the first-page retry
wrapper uses all its rounds and returns no data. -/
theorem firstPageLoop_empty (d : Driver) (hE : ∀ u, d.extract u = []) :
    ∀ left t rounds, ∃ t2, firstPageLoop d left t rounds = ([], t2, rounds + left) := by
  intro left
  induction left with
  | zero => intro t rounds; exact ⟨t, rfl⟩
  | succ n ih =>
    intro t rounds
    simp only [firstPageLoop]
    split
    · obtain ⟨t2, h⟩ := ih (t + 2) (rounds + 1)
      refine ⟨t2, ?_⟩
      rw [h]
      have he : rounds + 1 + n = rounds + (n + 1) := by omega
      rw [he]
    · rw [hE (t + 1)]
      simp only [List.isEmpty_nil, Bool.not_true]
      rw [if_neg (by simp)]
      by_cases hn : 0 < n
      · rw [if_pos hn]
        obtain ⟨t2, h⟩ := ih (t + 3) (rounds + 1)
        refine ⟨t2, ?_⟩
        rw [h]
        have he : rounds + 1 + n = rounds + (n + 1) := by omega
        rw [he]
      · rw [if_neg hn]
        have he : n = 0 := by omega
        subst he
        exact ⟨t + 2, rfl⟩

/-- If every pagination reading from some tick on is bounded by the state's
current page, the navigation tail always stops the session, with at most one
navigation attempt. -/
theorem navPhase_stops (d : Driver) (st : LoopState)
    (hb : ∀ u, st.t ≤ u → (d.pag u).currentPage ≤ st.currentPage) :
    ∃ r st2, navPhase d st = .stop r st2 ∧ st2.navCount ≤ st.navCount + 1 := by
  simp only [navPhase]
  split
  · exact ⟨_, _, rfl, Nat.le_succ _⟩
  · split
    · exact ⟨_, _, rfl, Nat.le_succ _⟩
    · split
      · exact ⟨_, _, rfl, Nat.le_succ _⟩
      · split
        · exact ⟨_, _, rfl, Nat.le_refl _⟩
        · split
          · exact ⟨_, _, rfl, Nat.le_refl _⟩
          · next hpost =>
            exact absurd (hb (st.t + 1 + 1) (by omega)) hpost

/-- Under a driver whose reported page number never increases over time, one
loop iteration always stops the session, with at most one navigation
attempt. -/
theorem loopBody_stops (d : Driver) (st : LoopState)
    (hm : ∀ s u : Nat, s ≤ u → (d.pag u).currentPage ≤ (d.pag s).currentPage) :
    ∃ r st2, loopBody d st = .stop r st2 ∧ st2.navCount ≤ st.navCount + 1 := by
  simp only [loopBody]
  split
  · exact ⟨_, _, rfl, Nat.le_succ _⟩
  · split
    · split
      · split
        · exact ⟨_, _, rfl, Nat.le_succ _⟩
        · apply navPhase_stops
          intro u hu
          have hu2 : (firstPageLoop d 3 (st.t + 1) 0).2.1 ≤ u := hu
          have hfp := firstPageLoop_t_le d 3 (st.t + 1) 0
          exact hm st.t u (by omega)
      · exact ⟨_, _, rfl, Nat.le_succ _⟩
    · split
      · split
        · exact ⟨_, _, rfl, Nat.le_succ _⟩
        · apply navPhase_stops
          intro u hu
          have hu2 : st.t + 1 + 1 ≤ u := hu
          exact hm st.t u (by omega)
      · apply navPhase_stops
        intro u hu
        have hu2 : st.t + 1 + 1 ≤ u := hu
        exact hm st.t u (by omega)

/-- The navigation tail never changes the set of seen fingerprints. -/
theorem navPhase_seen (d : Driver) (s : LoopState) :
    ((navPhase d s).state).seen = s.seen := by
  simp only [navPhase]
  split
  · rfl
  · split
    · rfl
    · split
      · rfl
      · split
        · rfl
        · split
          · rfl
          · rfl

/-- The navigation tail never reports a duplicate-data exit. -/
theorem navPhase_ne_dup (d : Driver) (s st2 : LoopState) :
    navPhase d s ≠ .stop .duplicateData st2 := by
  simp only [navPhase]
  split
  · simp
  · split
    · simp
    · split
      · simp
      · split
        · simp
        · split
          · simp
          · simp

/-- When the navigation tail continues the loop, it logs exactly one new
current-page value, strictly larger than the page it navigated from. -/
theorem navPhase_next_log (d : Driver) (s st2 : LoopState)
    (h : navPhase d s = .next st2) :
    ∃ b, st2.pageLog = s.pageLog ++ [b] ∧ s.currentPage < b := by
  simp only [navPhase] at h
  split at h
  · simp at h
  · split at h
    · simp at h
    · split at h
      · simp at h
      · split at h
        · simp at h
        · split at h
          · simp at h
          · next hpost =>
            injection h with h2
            subst h2
            exact ⟨(d.pag (s.t + 1 + 1)).currentPage, rfl, Nat.not_le.mp hpost⟩

/-- One loop iteration only ever appends to the set of seen fingerprints. -/
theorem loopBody_seen_extends (d : Driver) (st : LoopState) :
    st.seen <+: ((loopBody d st).state).seen := by
  simp only [loopBody]
  split
  · exact List.prefix_refl _
  · split
    · split
      · split
        · exact List.prefix_refl _
        · rw [navPhase_seen]
          exact ⟨_, rfl⟩
      · exact List.prefix_refl _
    · split
      · split
        · exact List.prefix_refl _
        · rw [navPhase_seen]
          exact ⟨_, rfl⟩
      · rw [navPhase_seen]

/-- When one loop iteration continues, `current_page` was assigned twice
(top-of-loop refresh, then post-navigation update) and the second assignment
is strictly larger. -/
theorem loopBody_next_log (d : Driver) (st st2 : LoopState)
    (h : loopBody d st = .next st2) :
    ∃ a b, st2.pageLog = st.pageLog ++ [a, b] ∧ a < b := by
  simp only [loopBody] at h
  split at h
  · simp at h
  · split at h
    · split at h
      · split at h
        · simp at h
        · obtain ⟨b, hb1, hb2⟩ := navPhase_next_log d _ _ h
          exact ⟨(d.pag st.t).currentPage, b, by rw [hb1, List.append_assoc]; rfl, hb2⟩
      · simp at h
    · split at h
      · split at h
        · simp at h
        · obtain ⟨b, hb1, hb2⟩ := navPhase_next_log d _ _ h
          exact ⟨(d.pag st.t).currentPage, b, by rw [hb1, List.append_assoc]; rfl, hb2⟩
      · obtain ⟨b, hb1, hb2⟩ := navPhase_next_log d _ _ h
        exact ⟨(d.pag st.t).currentPage, b, by rw [hb1, List.append_assoc]; rfl, hb2⟩

/-- Length of the canonical string of the one-cell records served by
`oscillatingDriver`. -/
theorem oscRecord_len (l : List Char) :
    (pyStrDict [("r", String.mk l)]).data.length = l.length + 9 := by
  simp [pyStrDict, pyQuote, String.intercalate, String.intercalate.go,
    String.length_append, String.length]

/-- The content served at iteration `k` of an `oscillatingDriver` session is
fresh: its fingerprint is not among the first `k` committed fingerprints. -/
theorem osc_fresh (k : Nat) :
    pageFingerprint [[("r", String.mk (List.replicate (6 * k + 3) (Char.ofNat 97)))]] ∉
      oscSeen k := by
  intro hmem
  simp only [oscSeen, List.mem_map, List.mem_range] at hmem
  obtain ⟨j, hj, hfp⟩ := hmem
  have hs : pyStrDict [("r", String.mk (List.replicate (6 * j + 3) (Char.ofNat 97)))] =
      pyStrDict [("r", String.mk (List.replicate (6 * k + 3) (Char.ofNat 97)))] := by
    have h := hfp
    simp only [pageFingerprint, sortStrings, List.map, List.insertionSort,
      List.orderedInsert] at h
    exact List.cons.inj h |>.1
  have hlen := congrArg (fun s => s.data.length) hs
  simp only [oscRecord_len, List.length_replicate] at hlen
  omega

/-- One more iteration appends exactly the fresh fingerprint. -/
theorem oscSeen_succ (k : Nat) :
    oscSeen (k + 1) = oscSeen k ++
      [pageFingerprint [[("r", String.mk (List.replicate (6 * k + 3) (Char.ofNat 97)))]]] := by
  simp [oscSeen, List.range_succ]

/-- Invariant step of an `oscillatingDriver` session: each loop iteration
continues, advances the tick by one period and commits one fresh
fingerprint. -/
theorem osc_step (k : Nat) (st : LoopState) (h1 : st.t = 6 * k + 1)
    (h2 : st.totalPages = 2) (h3 : st.currentPage ≤ 2) (h4 : st.seen = oscSeen k) :
    ∃ st2, loopBody oscillatingDriver st = .next st2 ∧ st2.t = 6 * (k + 1) + 1 ∧
      st2.totalPages = 2 ∧ st2.currentPage ≤ 2 ∧ st2.seen = oscSeen (k + 1) := by
  obtain ⟨t, cp, tp, seen, ad, cpg, nc, rc, fpr, plog⟩ := st
  simp only at h1 h2 h3 h4
  subst h1 h2 h4
  have hcp : ¬((2 : Nat) < cp) := by omega
  have hpag1 : oscillatingDriver.pag (6 * k + 1) = ⟨1, 2, true⟩ := by
    simp [oscillatingDriver, Nat.mul_add_mod]
  have hfpl : firstPageLoop oscillatingDriver 3 (6 * k + 1 + 1) 0 =
      ([[("r", String.mk (List.replicate (6 * k + 3) (Char.ofNat 97)))]], 6 * k + 4, 1) := by
    have e1 : 6 * k + 1 + 1 + 1 = 6 * k + 3 := by omega
    have e2 : 6 * k + 1 + 1 + 2 = 6 * k + 4 := by omega
    simp [firstPageLoop, oscillatingDriver, e1, e2]
  have hpag4 : oscillatingDriver.pag (6 * k + 4) = ⟨1, 2, true⟩ := by
    simp [oscillatingDriver, Nat.mul_add_mod]
  have hpag6 : oscillatingDriver.pag (6 * k + 4 + 1 + 1) = ⟨2, 2, true⟩ := by
    have e : 6 * k + 4 + 1 + 1 = 6 * (k + 1) := by omega
    rw [e]
    simp [oscillatingDriver, Nat.mul_mod_right]
  have hnavt : ∀ u, oscillatingDriver.navigate u = true := fun _ => rfl
  simp [loopBody, navPhase, hpag1, hfpl, hcp, hpag4, hpag6, hnavt, osc_fresh k]
  exact ⟨by omega, (oscSeen_succ k).symm⟩

/-- An `oscillatingDriver` session satisfying the invariant never stops,
whatever the fuel. -/
theorem osc_never_stops :
    ∀ (fuel k : Nat) (st : LoopState), st.t = 6 * k + 1 → st.totalPages = 2 →
      st.currentPage ≤ 2 → st.seen = oscSeen k →
      (scrapeLoop oscillatingDriver fuel st).isRunning = true := by
  intro fuel
  induction fuel with
  | zero => intro k st _ _ _ _; rfl
  | succ n ih =>
    intro k st h1 h2 h3 h4
    obtain ⟨st2, hstep, g1, g2, g3, g4⟩ := osc_step k st h1 h2 h3 h4
    simp only [scrapeLoop, hstep]
    exact ih (k + 1) st2 g1 g2 g3 g4

/-- The `oscillatingDriver` session never terminates. -/
theorem osc_runs_forever (fuel : Nat) :
    (runScraper oscillatingDriver fuel).isRunning = true := by
  apply osc_never_stops fuel 0
  · rfl
  · rfl
  · decide
  · rfl

/-- Claim C1 (amended): for every driver that never signals "no further
page" and whose reported current page number never increases, the session
terminates within the stall-threshold number (2) of navigation attempts
(possibly as the first-page structural failure when no data is served).
The unconditional half of the claim fails: the engine has no maximum-pages
safety ceiling (`max_pages` is deprecated and unused, v7.py lines 33-36)
and no stall counter, and the `oscillatingDriver` session - whose reported
total pages and the stall threshold are both 2 - never terminates. -/
theorem pagination_nonincreasing_terminates :
    (∀ d : Driver,
        (∀ s u : Nat, s ≤ u → (d.pag u).currentPage ≤ (d.pag s).currentPage) →
        (∀ u, (d.pag u).hasNext = true) → (∀ u, d.navigate u = true) →
        ∀ fuel, 1 ≤ fuel →
          ∃ r st, runScraper d fuel = .finished r st ∧ st.navCount ≤ 2) ∧
      ∀ fuel, (runScraper oscillatingDriver fuel).isRunning = true := by
  constructor
  · intro d hm _hn _hv fuel hf
    obtain ⟨f, rfl⟩ : ∃ f, fuel = f + 1 := ⟨fuel - 1, by omega⟩
    obtain ⟨r, st2, hb, hc⟩ := loopBody_stops d (initState (d.pag 0)) hm
    refine ⟨r, st2, ?_, ?_⟩
    · simp only [runScraper, scrapeLoop, hb]
    · have h0 : st2.navCount ≤ 0 + 1 := hc
      omega
  · exact osc_runs_forever

/-- Witness for the amended C1: the terminating half at a constant
single-page driver, the non-terminating half at fuel 12. -/
theorem pagination_nonincreasing_terminates_witness :
    (∃ r st, runScraper politeDriver 3 = .finished r st ∧ st.navCount ≤ 2) ∧
      (runScraper oscillatingDriver 12).isRunning = true :=
  ⟨pagination_nonincreasing_terminates.1 politeDriver
      (fun _ _ _ => Nat.le_refl 1) (fun _ => rfl) (fun _ => rfl) 3 (by omega),
    pagination_nonincreasing_terminates.2 12⟩

/-- Counterexample to C1 as stated: against `oscillatingDriver` - which
reports 2 total pages throughout, so every composition-level ceiling the
claim names is 2 - the session is still running after 12 and after 24
state-machine transitions. -/
theorem pagination_unbounded_counterexample :
    (runScraper oscillatingDriver 12).isRunning = true ∧
      (runScraper oscillatingDriver 24).isRunning = true :=
  ⟨by decide, by decide⟩

/-- Claim C2 (amended): when a page's fingerprint has already been seen, the
engine skips committing that page's rows (nothing is appended to the
accumulated or committed data) and terminates the session immediately on
this first repeat - there is no consecutive-stall counter reaching a
threshold of 2. -/
theorem duplicate_fingerprint_skips_commit (d : Driver) (st st2 : LoopState)
    (h : loopBody d st = .stop .duplicateData st2) :
    st2.allData = st.allData ∧ st2.committedPages = st.committedPages ∧
      st2.seen = st.seen ∧ st2.repeatCount = st.repeatCount + 1 := by
  simp only [loopBody] at h
  split at h
  · simp at h
  · split at h
    · split at h
      · split at h
        · injection h with h1 h2
          subst h2
          exact ⟨rfl, rfl, rfl, rfl⟩
        · exact absurd h (navPhase_ne_dup d _ st2)
      · simp at h
    · split at h
      · split at h
        · injection h with h1 h2
          subst h2
          exact ⟨rfl, rfl, rfl, rfl⟩
        · exact absurd h (navPhase_ne_dup d _ st2)
      · exact absurd h (navPhase_ne_dup d _ st2)

/-- Witness for the amended C2 at the broken-next-button scenario: the
iteration that sees page 1's content again commits nothing and counts one
repeat. -/
theorem duplicate_fingerprint_skips_commit_witness :
    ((loopBody stuckNextDriver stuckEntryState).state).allData = stuckEntryState.allData ∧
      ((loopBody stuckNextDriver stuckEntryState).state).committedPages =
        stuckEntryState.committedPages ∧
      ((loopBody stuckNextDriver stuckEntryState).state).seen = stuckEntryState.seen ∧
      ((loopBody stuckNextDriver stuckEntryState).state).repeatCount =
        stuckEntryState.repeatCount + 1 :=
  duplicate_fingerprint_skips_commit stuckNextDriver stuckEntryState
    ((loopBody stuckNextDriver stuckEntryState).state) (by decide)

/-- Counterexample to C2 as stated: with identical content on page 1 and
"page 2", the session ends after one repeat detection (not a stall count of
2), with only page 1's records committed. -/
theorem stall_threshold_counterexample :
    (runScraper stuckNextDriver 10).reason? = some .duplicateData ∧
      (runScraper stuckNextDriver 10).state.repeatCount = 1 ∧
      (runScraper stuckNextDriver 10).state.committedPages = [(1, stuckPageRows)] :=
  ⟨by decide, by decide, by decide⟩

/-- Claim C3 (amended): when no data table is located on page 1 the session
ends as the structural failure `noDataFirstPage`, but only after the
first-page logic has spent its 3 retry rounds (refresh and re-check) - not
immediately with no retry; on any page other than page 1, an extraction
that finds no data table yields zero rows and the iteration proceeds to the
navigation phase (with data and fingerprints unchanged) instead of
terminating. -/
theorem no_data_table_page_handling :
    (∀ (d : Driver) (st : LoopState), (∀ u, d.extract u = []) →
        (d.pag st.t).currentPage = 1 → st.currentPage ≤ st.totalPages →
        ∃ st2, loopBody d st = .stop .noDataFirstPage st2 ∧
          st2.firstPageRounds = st.firstPageRounds + 3) ∧
      ∀ (d : Driver) (st : LoopState), (d.pag st.t).currentPage ≠ 1 →
        d.extract (st.t + 1) = [] → st.currentPage ≤ st.totalPages →
        ∃ st2, loopBody d st = navPhase d st2 ∧ st2.allData = st.allData ∧
          st2.seen = st.seen ∧ st2.currentPage = (d.pag st.t).currentPage := by
  constructor
  · intro d st hE h1 hc
    obtain ⟨t2, hfp⟩ := firstPageLoop_empty d hE 3 (st.t + 1) 0
    simp only [loopBody, h1, hfp]
    rw [if_neg (by omega)]
    simp
  · intro d st h1 hE hc
    simp only [loopBody]
    split
    · next hlt => exact absurd hlt (by omega)
    · split
      · next hcp => exact absurd (by simpa using hcp) h1
      · split
        · next hne =>
          rw [hE] at hne
          simp at hne
        · exact ⟨_, rfl, rfl, rfl, rfl⟩

/-- Witness for the amended C3: the table-less page 1 of `emptyPageDriver`
fails after 3 rounds, and the table-less page 2 of `emptyLaterDriver`
reaches the navigation phase. -/
theorem no_data_table_page_handling_witness :
    (∃ st2, loopBody emptyPageDriver (initState (emptyPageDriver.pag 0)) =
        .stop .noDataFirstPage st2 ∧
        st2.firstPageRounds = (initState (emptyPageDriver.pag 0)).firstPageRounds + 3) ∧
      ∃ st2, loopBody emptyLaterDriver (initState (emptyLaterDriver.pag 0)) =
        navPhase emptyLaterDriver st2 ∧
        st2.allData = (initState (emptyLaterDriver.pag 0)).allData ∧
        st2.seen = (initState (emptyLaterDriver.pag 0)).seen ∧
        st2.currentPage =
          (emptyLaterDriver.pag (initState (emptyLaterDriver.pag 0)).t).currentPage :=
  ⟨no_data_table_page_handling.1 emptyPageDriver _ (fun _ => rfl) rfl (by decide),
    no_data_table_page_handling.2 emptyLaterDriver _ (by decide) rfl (by decide)⟩

/-- Counterexample to C3 as stated: the first-page structural failure is not
surfaced immediately with no retry - the session against `emptyPageDriver`
spends 3 first-page retry rounds before ending. -/
theorem first_page_retry_counterexample :
    (runScraper emptyPageDriver 5).reason? = some .noDataFirstPage ∧
      (runScraper emptyPageDriver 5).state.firstPageRounds = 3 :=
  ⟨by decide, by decide⟩

/-- Claim C7 (amended): the set of seen page fingerprints never shrinks
across a transition, and the engine advances to fetching the next page only
when the post-navigation page number strictly increased (otherwise it
terminates); but `current_page` itself is overwritten by the driver-reported
value at the top of each iteration and can decrease - see the
counterexample. -/
theorem seen_monotone_advance_on_increase :
    (∀ (d : Driver) (st : LoopState), st.seen <+: ((loopBody d st).state).seen) ∧
      ∀ (d : Driver) (st st2 : LoopState), loopBody d st = .next st2 →
        ∃ a b, st2.pageLog = st.pageLog ++ [a, b] ∧ a < b :=
  ⟨loopBody_seen_extends, loopBody_next_log⟩

/-- Witness for the amended C7 at the first iteration of the
broken-next-button scenario, which continues after a strict page
increase. -/
theorem seen_monotone_advance_on_increase_witness :
    (initState (stuckNextDriver.pag 0)).seen <+:
        ((loopBody stuckNextDriver (initState (stuckNextDriver.pag 0))).state).seen ∧
      ∃ a b, stuckEntryState.pageLog =
        (initState (stuckNextDriver.pag 0)).pageLog ++ [a, b] ∧ a < b :=
  ⟨seen_monotone_advance_on_increase.1 stuckNextDriver _,
    seen_monotone_advance_on_increase.2 stuckNextDriver _ stuckEntryState (by decide)⟩

/-- Counterexample to C7 as stated: against `oscillatingDriver` the
successive values of `current_page` contain a decrease (the top-of-loop
refresh resets the page the driver reports). -/
theorem current_page_decrease_counterexample :
    hasDecrease (runScraper oscillatingDriver 12).state.pageLog = true := by decide
